import Mathlib

/-!
Shallow embedding of the Twikit HTTP service (`app/config.py`, `app/models.py`,
`app/database.py`, `app/twitter_client.py`, `app/main.py`).

Conventions of the embedding:
* Python strings are Lean `String`s; SQLite `CURRENT_TIMESTAMP` values are
  abstract clock ticks (`Nat`) passed in by the caller.
* Exceptions are `Except String` values; a raised `TwitterClientError` is an
  `Except.error` carrying `str(e)`.
* The outcomes of calls into the external `twikit` client (network, login,
  cookie files) are supplied by explicit environment records, one field per
  external call site, so the wrapper logic itself stays exactly as in the
  source.
-/

namespace Twikit

/-! ## Embedding of app/config.py — Settings -/

/-- Mirror of `Settings` in `app/config.py`: the environment-provided
configuration fields with their declared defaults. -/
structure Settings where
  twitter_username : String
  twitter_email : String
  twitter_password : String
  host : String
  port : Nat
  database_url : String
  log_level : String
  max_retry_attempts : Nat
  retry_delay : Nat
  cookies_file : String
  log_file : String
deriving Repr, DecidableEq

/-- Settings built from the three required credentials with every other
field at its declared default (`app/config.py`, lines 16-31). -/
def defaultSettings (username email password : String) : Settings :=
  { twitter_username := username
    twitter_email := email
    twitter_password := password
    host := "0.0.0.0"
    port := 8000
    database_url := "sqlite+aiosqlite:///data/app.db"
    log_level := "INFO"
    max_retry_attempts := 3
    retry_delay := 2
    cookies_file := "data/cookies.json"
    log_file := "data/app.log" }

/-- Mirror of `Settings.validate_config` (`app/config.py`, lines 38-54): the
three credentials are collected, the falsy (empty) ones form `missing_fields`,
and a `ValueError` is raised when that list is non-empty, else `True` is
returned.  The method never assigns to `self`, so the post-state equals the
input settings; we return it explicitly to record that. -/
def validate_config (s : Settings) : Except String Bool × Settings :=
  let required_fields := [s.twitter_username, s.twitter_email, s.twitter_password]
  let missing_fields := required_fields.filter (fun f => f == "")
  if missing_fields.isEmpty then (.ok true, s)
  else (.error "缺少必要配置", s)

/-! ## Embedding of app/models.py — request validation

`TweetRequest.text` is declared `Field(..., min_length=1, max_length=280)`;
pydantic rejects the request (FastAPI answers 422) before the handler body
runs when the bound fails. -/

/-- The pydantic constraint on `TweetRequest.text` (`app/models.py`, line 9). -/
def validText (text : String) : Bool :=
  1 ≤ text.length && text.length ≤ 280

/-! ## Embedding of app/database.py — DatabaseManager over the tweet_logs table -/

/-- One row of the `tweet_logs` table (`app/database.py`, lines 22-33). -/
structure Row where
  id : Nat
  tweet_id : Option String
  text : String
  status : String
  retry_count : Nat
  error_message : Option String
  created_at : Nat
  updated_at : Nat
deriving Repr, DecidableEq

/-- The `tweet_logs` table: its rows in insertion order plus the next value of
the `AUTOINCREMENT` primary key. -/
structure DB where
  rows : List Row
  nextId : Nat
deriving Repr, DecidableEq

/-- Well-formedness of the table: every stored id is below the autoincrement
counter (which SQLite guarantees for `AUTOINCREMENT` keys). -/
def DB.wf (db : DB) : Prop :=
  ∀ r ∈ db.rows, r.id < db.nextId

/-- Mirror of `DatabaseManager.log_tweet` (`app/database.py`, lines 46-56):
insert a row with the given `tweet_id`, `text`, `status`, `error_message`,
`retry_count` defaulting to 0 and both timestamps set to the current time;
return `cursor.lastrowid` together with the new table. -/
def log_tweet (db : DB) (text : String) (tweet_id : Option String)
    (status : String) (error_message : Option String) (now : Nat) : Nat × DB :=
  let id := db.nextId
  (id,
   { rows := db.rows ++
       [{ id := id, tweet_id := tweet_id, text := text, status := status,
          retry_count := 0, error_message := error_message,
          created_at := now, updated_at := now }],
     nextId := id + 1 })

/-- The row `log_tweet` inserts for a new publish attempt (status
`processing`, `retry_count` 0, no tweet id, no error). -/
def insertedRow (db : DB) (text : String) (now : Nat) : Row :=
  { id := db.nextId, tweet_id := none, text := text, status := "processing",
    retry_count := 0, error_message := none, created_at := now,
    updated_at := now }

/-- The `SET` clause of `DatabaseManager.update_tweet_log` applied to one row:
each argument that `is not None` overwrites its column, `updated_at` is always
set to `CURRENT_TIMESTAMP`, every other column is untouched. -/
def applyUpdate (tweet_id : Option String) (status : Option String)
    (retry_count : Option Nat) (error_message : Option String) (now : Nat)
    (r : Row) : Row :=
  { r with
    tweet_id := match tweet_id with | some v => some v | none => r.tweet_id
    status := match status with | some v => v | none => r.status
    retry_count := match retry_count with | some v => v | none => r.retry_count
    error_message := match error_message with | some v => some v | none => r.error_message
    updated_at := now }

/-- Mirror of `DatabaseManager.update_tweet_log` (`app/database.py`, lines
58-88): `UPDATE tweet_logs SET ... WHERE id = ?` — the `SET` clause above is
applied to exactly the rows whose `id` equals `log_id`. -/
def update_tweet_log (db : DB) (log_id : Nat) (tweet_id : Option String)
    (status : Option String) (retry_count : Option Nat)
    (error_message : Option String) (now : Nat) : DB :=
  { db with
    rows := db.rows.map (fun r => if r.id = log_id then
      applyUpdate tweet_id status retry_count error_message now r else r) }

/-- Query `SELECT status FROM tweet_logs WHERE id = ?` (first match). -/
def rowStatus (db : DB) (id : Nat) : Option String :=
  (db.rows.find? (fun r => r.id == id)).map (fun r => r.status)

/-- Query `SELECT error_message FROM tweet_logs WHERE id = ?` (first match). -/
def rowError (db : DB) (id : Nat) : Option (Option String) :=
  (db.rows.find? (fun r => r.id == id)).map (fun r => r.error_message)

/-! ## Embedding of app/twitter_client.py — TwitterService -/

/-- The mutable state of a `TwitterService` instance: the cached
`_authenticated` flag (the credentials are immutable and play no role in the
control flow, so they are not carried). -/
structure SvcState where
  authenticated : Bool
deriving Repr, DecidableEq

/-- Outcomes of the external calls one `authenticate()` run can make
(`os.path.exists`, `client.load_cookies`, `_test_authentication`,
`client.login`, `client.save_cookies`), with the `str(e)` message of each
possible failure. -/
structure AuthEnv where
  cookieFileExists : Bool
  loadCookiesOk : Bool
  loadErr : String
  testAuthOk : Bool
  loginOk : Bool
  loginErr : String
  saveCookiesOk : Bool
  saveErr : String
deriving Repr, DecidableEq

/-- What an `authenticate()` run did: whether it loaded the cookie file,
whether it called `client.login`, whether it saved fresh cookies. -/
structure AuthTrace where
  triedCookies : Bool
  calledLogin : Bool
  savedCookies : Bool
deriving Repr, DecidableEq

namespace TwitterService

/-- The fall-through tail of `authenticate` (`app/twitter_client.py`, lines
48-62): full `client.login`, then `save_cookies`, then `_authenticated = True`
and return `True`; any exception in it is caught by the method's outer
`except` and re-raised as `TwitterClientError("认证失败: " + str(e))`.  The
flag is only set after a successful save, so a failure leaves the state as it
was. -/
def loginAndSave (env : AuthEnv) (st : SvcState) (tried : Bool) :
    Except String Bool × SvcState × AuthTrace :=
  if env.loginOk then
    if env.saveCookiesOk then
      (.ok true, { st with authenticated := true },
       ⟨tried, true, true⟩)
    else
      (.error ("认证失败: " ++ env.saveErr), st, ⟨tried, true, false⟩)
  else
    (.error ("认证失败: " ++ env.loginErr), st, ⟨tried, true, false⟩)

/-- Mirror of `TwitterService.authenticate` (`app/twitter_client.py`, lines
31-67).  If the cookies file exists it is loaded and the session tested; a
passing test sets `_authenticated` and returns `True` with no login.  A
failing test is swallowed by the inner `except` and control falls through to
the full login.  An exception from `load_cookies` itself escapes to the outer
`except` and is re-raised as `TwitterClientError` without attempting a login.
When the file is absent, the full login runs directly. -/
def authenticate (env : AuthEnv) (st : SvcState) :
    Except String Bool × SvcState × AuthTrace :=
  if env.cookieFileExists then
    if env.loadCookiesOk then
      if env.testAuthOk then
        (.ok true, { st with authenticated := true }, ⟨true, false, false⟩)
      else
        loginAndSave env st true
    else
      (.error ("认证失败: " ++ env.loadErr), st, ⟨true, false, false⟩)
  else
    loginAndSave env st false

end TwitterService

/-- Whether `needle` is a character-wise leading segment of `hay`. -/
def startsWithL : List Char → List Char → Bool
  | [], _ => true
  | _ :: _, [] => false
  | n :: ns, h :: hs => n == h && startsWithL ns hs

/-- Whether `needle` occurs contiguously somewhere in `hay` (Python's `in` on
strings). -/
def hasSubL (needle : List Char) : List Char → Bool
  | [] => needle.isEmpty
  | h :: hs => startsWithL needle (h :: hs) || hasSubL needle hs

/-- Python `kw in msg`. -/
def containsKeyword (msg kw : String) : Bool :=
  hasSubL kw.toList msg.toList

/-- Python's `str.lower()`, character by character (the keywords being matched
are ASCII, where the two agree). -/
def pyLower (s : String) : String :=
  String.mk (s.toList.map Char.toLower)

/-- The keyword list of `app/twitter_client.py`, line 135. -/
def authKeywords : List String := ["auth", "login", "unauthorized", "forbidden"]

/-- Mirror of `any(keyword in str(e).lower() for keyword in [...])`
(`app/twitter_client.py`, line 135). -/
def isAuthError (msg : String) : Bool :=
  authKeywords.any (fun k => containsKeyword (pyLower msg) k)

/-- The `result` dictionary built from the posted tweet
(`app/twitter_client.py`, lines 119-125). -/
structure Tweet where
  id : String
  text : String
  created_at : String
  user_id : String
  user_name : String
deriving Repr, DecidableEq

/-- Outcome of the body of one `create_tweet` attempt: either the external
client returns a tweet, or some step of the `try` block (media upload or
`client.create_tweet`) raises with message `str(e)`. -/
inductive PostResult where
  | ok (t : Tweet)
  | err (msg : String)
deriving Repr, DecidableEq

/-- External outcomes available to one invocation of the decorated
`create_tweet`: the environment for a possible `authenticate()` call and the
outcome of the posting body. -/
structure AttemptEnv where
  auth : AuthEnv
  post : PostResult
deriving Repr, DecidableEq

namespace TwitterService

/-- The `try`/`except` body of `create_tweet` (`app/twitter_client.py`, lines
96-140), entered once the service is authenticated: on success the result
dictionary is returned; on failure the error is logged, the `_authenticated`
flag is cleared when the message contains an auth keyword, and
`TwitterClientError("发布推文失败: " + str(e))` is raised. -/
def attemptBody (st : SvcState) (outcome : PostResult) :
    Except String Tweet × SvcState :=
  match outcome with
  | .ok t => (.ok t, st)
  | .err msg =>
      let st' := if isAuthError msg then { st with authenticated := false } else st
      (.error ("发布推文失败: " ++ msg), st')

/-- One invocation of the decorated `create_tweet` (`app/twitter_client.py`,
lines 83-140): `if not self._authenticated: await self.authenticate()` —
which sits before the `try`, so its failure escapes the attempt untouched —
then the posting body.  The third component records whether `authenticate()`
was invoked. -/
def attemptOnce (env : AttemptEnv) (st : SvcState) :
    Except String Tweet × SvcState × Bool :=
  if st.authenticated then
    let (r, st') := attemptBody st env.post
    (r, st', false)
  else
    match authenticate env.auth st with
    | (.ok _, st', _) =>
        let (r, st'') := attemptBody st' env.post
        (r, st'', true)
    | (.error e, st', _) => (.error e, st', true)

end TwitterService

/-- The `stop=stop_after_attempt(3)` argument of the `@retry` decorator on
`create_tweet` (`app/twitter_client.py`, line 77): a hard-coded attempt
bound. -/
def stop_after_attempt : Nat := 3

/-- tenacity's `wait_exponential`: `multiplier * exp_base ** attempt_number`
clamped into `[mn, mx]`. -/
def wait_exponential (multiplier mn mx exp_base attempt_number : Nat) : Nat :=
  max mn (min (multiplier * exp_base ^ attempt_number) mx)

/-- The `wait=wait_exponential(multiplier=1, min=2, max=10)` argument of the
`@retry` decorator (`app/twitter_client.py`, line 78), as a function of the
number of the attempt that just failed. -/
def retryWait (attempt_number : Nat) : Nat :=
  wait_exponential 1 2 10 2 attempt_number

/-- The sleeps tenacity performs between the `attempts` invocations of the
decorated function: after failed attempt `k` (while attempts remain) it waits
`retryWait k` seconds. -/
def backoffDelays (attempts : Nat) : List Nat :=
  (List.range (attempts - 1)).map (fun k => retryWait (k + 1))

namespace TwitterService

/-- The retry loop the `@retry` decorator wraps around `create_tweet`
(`app/twitter_client.py`, lines 76-81): run the attempt; on success stop; on
failure retry while the attempt budget (`fuel`) is not exhausted; with
`reraise=True` the last attempt's exception is re-raised.  `n` is the 1-based
number of the current attempt; the returned `Nat` counts the attempts made. -/
def runAttempts (env : Nat → AttemptEnv) :
    SvcState → Nat → Nat → Except String Tweet × SvcState × Nat
  | st, _, 0 => (.error "", st, 0)
  | st, n, fuel + 1 =>
      match attemptOnce (env n) st with
      | (.ok t, st', _) => (.ok t, st', 1)
      | (.error e, st', _) =>
          if fuel = 0 then (.error e, st', 1)
          else
            let (r, st'', c) := runAttempts env st' (n + 1) fuel
            (r, st'', c + 1)

/-- The decorated `TwitterService.create_tweet`: the retry loop started at
attempt 1 with the hard-coded budget `stop_after_attempt = 3`. -/
def create_tweet (env : Nat → AttemptEnv) (st : SvcState) :
    Except String Tweet × SvcState × Nat :=
  runAttempts env st 1 stop_after_attempt

/-- Mirror of `TwitterService.get_tweet_info` (`app/twitter_client.py`, lines
190-206).  The `authenticate()` call sits before the `try`, so its exception
propagates; the `try` body's outcome (the info dictionary, or `None` when the
lookup raised) is abstracted by `fetched`.  The `Bool` records whether
`authenticate()` was invoked. -/
def get_tweet_info (aenv : AuthEnv) (fetched : Option Tweet) (st : SvcState) :
    Except String (Option Tweet) × SvcState × Bool :=
  if st.authenticated then (.ok fetched, st, false)
  else
    match authenticate aenv st with
    | (.ok _, st', _) => (.ok fetched, st', true)
    | (.error e, st', _) => (.error e, st', true)

end TwitterService

/-- The `{"status": ..., "message": ...}` dictionary returned by
`TwitterService.health_check`. -/
structure HealthDict where
  status : String
  message : String
deriving Repr, DecidableEq

namespace TwitterService

/-- Mirror of `TwitterService.health_check` (`app/twitter_client.py`, lines
208-218): the whole body sits inside `try`/`except Exception`, so the method
always returns a dictionary — `connected` when (re-)authentication and the
test call pass, `disconnected` otherwise.  The `Bool` records whether
`authenticate()` was invoked. -/
def health_check (aenv : AuthEnv) (testOk : Bool) (st : SvcState) :
    HealthDict × SvcState × Bool :=
  if st.authenticated then
    if testOk then (⟨"connected", "Twitter API连接正常"⟩, st, false)
    else (⟨"disconnected", "Twitter API连接异常"⟩, st, false)
  else
    match authenticate aenv st with
    | (.ok _, st', _) =>
        if testOk then (⟨"connected", "Twitter API连接正常"⟩, st', true)
        else (⟨"disconnected", "Twitter API连接异常"⟩, st', true)
    | (.error e, st', _) =>
        (⟨"disconnected", "Twitter API连接异常: " ++ e⟩, st', true)

end TwitterService

/-! ## Embedding of app/main.py — the HTTP surface -/

/-- The exceptions `process_tweet_async` can let escape to the handler: a
`TwitterClientError` from the service, or some other exception — concretely
the `RuntimeError` that `get_twitter_service()` raises when the global service
was never initialised (`app/twitter_client.py`, lines 227-230). -/
inductive Exc where
  | twitterErr (msg : String)
  | otherErr (msg : String)
deriving Repr, DecidableEq

/-- Observable steps of one `POST /api/tweet` request, in the order they are
performed. -/
inductive Event where
  | validate (ok : Bool)
  | insertLog (id : Nat) (status : String)
  | adapterCall
  | updateLog (id : Nat) (status : String)
  | respond (code : Nat)
deriving Repr, DecidableEq

/-- The HTTP response of `POST /api/tweet`: the 200 `TweetResponse`, or an
error response with its status code, `error_code` and `details` (both the
`HTTPException` branches and FastAPI's 422 validation answer). -/
inductive HttpResp where
  | ok (tweet_id : String) (message : String) (created_at : Option String)
  | err (statusCode : Nat) (error_code : String) (details : String)
deriving Repr, DecidableEq

/-- HTTP status code of a response. -/
def HttpResp.code : HttpResp → Nat
  | .ok _ _ _ => 200
  | .err c _ _ => c

/-- External state one `POST /api/tweet` request runs against: whether the
global service was initialised at startup, and the per-attempt outcomes of
the adapter call. -/
structure ReqEnv where
  serviceInit : Bool
  attempts : Nat → AttemptEnv

/-- Mirror of `process_tweet_async` (`app/main.py`, lines 141-174):
`get_twitter_service()` (raising `RuntimeError` when uninitialised), then
`service.create_tweet`, then the log update — `success` with the tweet id on
success; on any exception, `failed` with `str(e)` recorded, and the exception
re-raised.  Every service failure is a `TwitterClientError`; the uninitialised
case re-raises the `RuntimeError`.  Also returns the events performed. -/
def process_tweet_async (env : ReqEnv) (st : SvcState) (db : DB)
    (log_id : Nat) (now : Nat) :
    Except Exc Tweet × SvcState × DB × List Event :=
  if env.serviceInit then
    match TwitterService.create_tweet env.attempts st with
    | (.ok t, st', c) =>
        (.ok t, st',
         update_tweet_log db log_id (some t.id) (some "success") none none now,
         List.replicate c .adapterCall ++ [.updateLog log_id "success"])
    | (.error msg, st', c) =>
        (.error (.twitterErr msg), st',
         update_tweet_log db log_id none (some "failed") none (some msg) now,
         List.replicate c .adapterCall ++ [.updateLog log_id "failed"])
  else
    (.error (.otherErr "Twitter服务未初始化"), st,
     update_tweet_log db log_id none (some "failed") none
       (some "Twitter服务未初始化") now,
     [.updateLog log_id "failed"])

/-- The two `except` branches of the handler (`app/main.py`, lines 212-244):
both update the log row to `failed` with `str(e)` once more; a
`TwitterClientError` then becomes `HTTPException(400, TWITTER_ERROR)`, any
other exception `HTTPException(500, INTERNAL_ERROR)`. -/
def dispatchError (db : DB) (log_id : Nat) (now : Nat) :
    Exc → DB × HttpResp × List Event
  | .twitterErr msg =>
      (update_tweet_log db log_id none (some "failed") none (some msg) now,
       .err 400 "TWITTER_ERROR" msg, [.updateLog log_id "failed"])
  | .otherErr msg =>
      (update_tweet_log db log_id none (some "failed") none (some msg) now,
       .err 500 "INTERNAL_ERROR" msg, [.updateLog log_id "failed"])

namespace Main

/-- Mirror of the `POST /api/tweet` handler `create_tweet` (`app/main.py`,
lines 176-244), with pydantic's validation of `TweetRequest` in front of it:
an invalid `text` is answered 422 before the handler body runs; otherwise the
log row is inserted with status `processing`, the tweet is processed, and the
response built — the 200 `TweetResponse` on success, the dispatched
`HTTPException` on failure.  Returns the response, the service state, the
table, and the events in order. -/
def create_tweet (env : ReqEnv) (st : SvcState) (db : DB) (text : String)
    (now : Nat) : HttpResp × SvcState × DB × List Event :=
  if validText text then
    let (log_id, db1) := log_tweet db text none "processing" none now
    match process_tweet_async env st db1 log_id now with
    | (.ok t, st', db2, evs) =>
        (.ok t.id "推文发布成功" (some t.created_at), st', db2,
         [.validate true, .insertLog log_id "processing"] ++ evs ++
           [.respond 200])
    | (.error e, st', db2, evs) =>
        let (db3, resp, evs2) := dispatchError db2 log_id now e
        (resp, st', db3,
         [.validate true, .insertLog log_id "processing"] ++ evs ++ evs2 ++
           [.respond resp.code])
  else
    (.err 422 "VALIDATION_ERROR" "text length out of range", st, db,
     [.validate false, .respond 422])

end Main

/-- The `HealthResponse` model (`app/models.py`, lines 42-46), timestamp
omitted. -/
structure HealthResponse where
  status : String
  twitter_status : String
deriving Repr, DecidableEq

/-- External state one `GET /health` request runs against. -/
structure HealthEnv where
  serviceInit : Bool
  aenv : AuthEnv
  testOk : Bool

namespace Main

/-- Mirror of the `GET /health` handler (`app/main.py`, lines 123-139): the
`try` covers `get_twitter_service()` and the adapter's `health_check`; when
they return, the response is `healthy` with the adapter-reported status; when
anything raises — here only the uninitialised-service `RuntimeError`, since
the adapter's `health_check` is total — the `except` answers `unhealthy` /
`error`. -/
def health_check (env : HealthEnv) (st : SvcState) : HealthResponse × SvcState :=
  if env.serviceInit then
    let (d, st', _) := TwitterService.health_check env.aenv env.testOk st
    (⟨"healthy", d.status⟩, st')
  else
    (⟨"unhealthy", "error"⟩, st)

end Main

/-! ## Concrete instances used to exercise the theorems -/

/-- An environment where every external call of `authenticate` succeeds. -/
def aeOkC : AuthEnv :=
  ⟨true, true, "load error", true, true, "login error", true, "save error"⟩

/-- An adapter environment whose posting call fails on every attempt with a
non-auth network error. -/
def failEnvC : Nat → AttemptEnv := fun _ => ⟨aeOkC, .err "network down"⟩

/-- A sample posted tweet. -/
def twC : Tweet := ⟨"123", "hello", "2024-01-15", "u1", "Name"⟩

/-- An adapter environment whose posting call succeeds immediately. -/
def okEnvC : Nat → AttemptEnv := fun _ => ⟨aeOkC, .ok twC⟩

/-- A configuration with `max_retry_attempts` set to 2 through the
`MAX_RETRY_ATTEMPTS` environment variable. -/
def cexSettings : Settings :=
  { defaultSettings "user" "mail" "pw" with max_retry_attempts := 2 }

/-- An empty `tweet_logs` table (as `init_database` creates it). -/
def dbEmptyC : DB := ⟨[], 1⟩

/-- A two-row table used to exercise the update frame theorem. -/
def dbTwoC : DB :=
  ⟨[⟨1, none, "first", "processing", 0, none, 10, 10⟩,
    ⟨2, some "900", "second", "success", 0, none, 11, 12⟩], 3⟩

/-- A request environment whose adapter succeeds immediately. -/
def renvOkC : ReqEnv := ⟨true, okEnvC⟩

/-- A request environment whose adapter fails every attempt. -/
def renvFailC : ReqEnv := ⟨true, failEnvC⟩

/-- A request environment where the global service was never initialised. -/
def renvUninitC : ReqEnv := ⟨false, okEnvC⟩

/-! ## Helper lemmas about the log table -/

theorem applyUpdate_id (t s : Option String) (rc : Option Nat)
    (em : Option String) (now : Nat) (r : Row) :
    (applyUpdate t s rc em now r).id = r.id := rfl

theorem map_update_noop (l : List Row) (i : Nat) (g : Row → Row)
    (h : ∀ r ∈ l, r.id ≠ i) :
    l.map (fun r => if r.id = i then g r else r) = l := by
  induction l with
  | nil => rfl
  | cons a t ih =>
      have ha : a.id ≠ i := h a (List.mem_cons_self a t)
      simp [List.map_cons, if_neg ha,
        ih (fun r hr => h r (List.mem_cons_of_mem a hr))]

theorem find?_id_append (l : List Row) (r0 : Row) (i : Nat)
    (hid : r0.id = i) (h : ∀ r ∈ l, r.id ≠ i) :
    (l ++ [r0]).find? (fun r => r.id == i) = some r0 := by
  subst hid
  induction l with
  | nil => simp [List.find?]
  | cons a t ih =>
      have ha : (a.id == r0.id) = false := by
        simp [h a (List.mem_cons_self a t)]
      simp [List.find?, ha, ih (fun r hr => h r (List.mem_cons_of_mem a hr))]

theorem update_rows_append (l : List Row) (r0 : Row) (m i : Nat)
    (hid : r0.id = i) (h : ∀ r ∈ l, r.id ≠ i)
    (t s : Option String) (rc : Option Nat)
    (em : Option String) (now : Nat) :
    update_tweet_log ⟨l ++ [r0], m⟩ i t s rc em now =
      ⟨l ++ [applyUpdate t s rc em now r0], m⟩ := by
  subst hid
  simp [update_tweet_log, List.map_append, map_update_noop l r0.id _ h]

theorem rowStatus_append (l : List Row) (r0 : Row) (m i : Nat)
    (hid : r0.id = i) (h : ∀ r ∈ l, r.id ≠ i) :
    rowStatus ⟨l ++ [r0], m⟩ i = some r0.status := by
  simp [rowStatus, find?_id_append l r0 i hid h]

theorem rowError_append (l : List Row) (r0 : Row) (m i : Nat)
    (hid : r0.id = i) (h : ∀ r ∈ l, r.id ≠ i) :
    rowError ⟨l ++ [r0], m⟩ i = some r0.error_message := by
  simp [rowError, find?_id_append l r0 i hid h]

/-! ## Claim C7 -/

/-- C7: `validate_config` raises a `ValueError` exactly when at least one of
the three required credentials (`twitter_username`, `twitter_email`,
`twitter_password`) is empty, returns `True` otherwise, and leaves the
settings unchanged in both cases. -/
theorem claim_C7 (s : Settings) :
    ((∃ m, (validate_config s).1 = Except.error m) ↔
      (s.twitter_username = "" ∨ s.twitter_email = "" ∨
        s.twitter_password = "")) ∧
    ((s.twitter_username ≠ "" ∧ s.twitter_email ≠ "" ∧
        s.twitter_password ≠ "") →
      (validate_config s).1 = Except.ok true) ∧
    (validate_config s).2 = s := by
  cases hb1 : (s.twitter_username == "") <;>
    cases hb2 : (s.twitter_email == "") <;>
      cases hb3 : (s.twitter_password == "") <;>
        simp only [validate_config, List.filter, hb1, hb2, hb3] <;>
          simp_all

/-- C7 witness: a fully-populated default configuration validates, an empty
username raises. -/
theorem claim_C7_witness :
    ((∃ m, (validate_config (defaultSettings "u" "e" "p")).1 = Except.error m) ↔
      (defaultSettings "u" "e" "p").twitter_username = "" ∨
        (defaultSettings "u" "e" "p").twitter_email = "" ∨
        (defaultSettings "u" "e" "p").twitter_password = "") ∧
    (((defaultSettings "u" "e" "p").twitter_username ≠ "" ∧
        (defaultSettings "u" "e" "p").twitter_email ≠ "" ∧
        (defaultSettings "u" "e" "p").twitter_password ≠ "") →
      (validate_config (defaultSettings "u" "e" "p")).1 = Except.ok true) ∧
    (validate_config (defaultSettings "u" "e" "p")).2 =
      defaultSettings "u" "e" "p" :=
  claim_C7 (defaultSettings "u" "e" "p")

/-! ## Claim C10 -/

/-- C10: one call to `update_tweet_log` on `log_id` changes only the row with
that id, and on it only the columns passed as non-`None` plus `updated_at`;
`text`, `created_at` and every unsupplied column keep their values, the table
keeps its length, and rows with other ids are untouched. -/
theorem claim_C10 (db : DB) (log_id : Nat) (t s : Option String)
    (rc : Option Nat) (em : Option String) (now : Nat) (i : Nat)
    (h1 : i < db.rows.length)
    (h2 : i < (update_tweet_log db log_id t s rc em now).rows.length) :
    (update_tweet_log db log_id t s rc em now).rows.length =
      db.rows.length ∧
    (update_tweet_log db log_id t s rc em now).rows[i].text = db.rows[i].text ∧
    (update_tweet_log db log_id t s rc em now).rows[i].created_at = db.rows[i].created_at ∧
    (update_tweet_log db log_id t s rc em now).rows[i].id = db.rows[i].id ∧
    (db.rows[i].id ≠ log_id → (update_tweet_log db log_id t s rc em now).rows[i] = db.rows[i]) ∧
    (db.rows[i].id = log_id →
      (update_tweet_log db log_id t s rc em now).rows[i].updated_at = now ∧
      (t = none → (update_tweet_log db log_id t s rc em now).rows[i].tweet_id = db.rows[i].tweet_id) ∧
      (s = none → (update_tweet_log db log_id t s rc em now).rows[i].status = db.rows[i].status) ∧
      (rc = none → (update_tweet_log db log_id t s rc em now).rows[i].retry_count = db.rows[i].retry_count) ∧
      (em = none → (update_tweet_log db log_id t s rc em now).rows[i].error_message = db.rows[i].error_message) ∧
      (∀ v, t = some v → (update_tweet_log db log_id t s rc em now).rows[i].tweet_id = some v) ∧
      (∀ v, s = some v → (update_tweet_log db log_id t s rc em now).rows[i].status = v) ∧
      (∀ v, rc = some v → (update_tweet_log db log_id t s rc em now).rows[i].retry_count = v) ∧
      (∀ v, em = some v → (update_tweet_log db log_id t s rc em now).rows[i].error_message = some v)) := by
  have hrows : (update_tweet_log db log_id t s rc em now).rows =
      db.rows.map (fun r => if r.id = log_id then
        applyUpdate t s rc em now r else r) := rfl
  have hget : (update_tweet_log db log_id t s rc em now).rows[i] =
      if db.rows[i].id = log_id then
        applyUpdate t s rc em now db.rows[i]
      else db.rows[i] := by
    simp [hrows, List.getElem_map]
  by_cases hid : db.rows[i].id = log_id
  · have hgetp : (update_tweet_log db log_id t s rc em now).rows[i] =
        applyUpdate t s rc em now db.rows[i] := by
      rw [hget, if_pos hid]
    refine ⟨by simp [hrows], ?_, ?_, ?_, fun hc => absurd hid hc, fun _ => ?_⟩
    · simp [hgetp, applyUpdate]
    · simp [hgetp, applyUpdate]
    · simp [hgetp, applyUpdate]
    · refine ⟨by simp [hgetp, applyUpdate], ?_, ?_, ?_, ?_, ?_, ?_, ?_, ?_⟩
      · rintro rfl; simp [hgetp, applyUpdate]
      · rintro rfl; simp [hgetp, applyUpdate]
      · rintro rfl; simp [hgetp, applyUpdate]
      · rintro rfl; simp [hgetp, applyUpdate]
      · rintro v rfl; simp [hgetp, applyUpdate]
      · rintro v rfl; simp [hgetp, applyUpdate]
      · rintro v rfl; simp [hgetp, applyUpdate]
      · rintro v rfl; simp [hgetp, applyUpdate]
  · have hgetn : (update_tweet_log db log_id t s rc em now).rows[i] = db.rows[i] := by rw [hget, if_neg hid]
    exact ⟨by simp [hrows], by simp [hgetn], by simp [hgetn], by simp [hgetn],
      fun _ => hgetn, fun hc => absurd hc hid⟩

/-- C10 witness: the frame condition evaluated on a concrete two-row table,
updating row 2's status only. -/
theorem claim_C10_witness :
    (0 : Nat) < dbTwoC.rows.length ∧
    (0 : Nat) <
      (update_tweet_log dbTwoC 2 none (some "failed") none none 20).rows.length ∧
    (update_tweet_log dbTwoC 2 none (some "failed") none none 20).rows.length =
      dbTwoC.rows.length :=
  ⟨by decide, by decide,
    (claim_C10 dbTwoC 2 none (some "failed") none none 20 0 (by decide)
      (by decide)).1⟩

/-! ## Claim C4 -/

/-- C4: when a `create_tweet` attempt fails with an authentication-related
message (containing `auth`, `login`, `unauthorized` or `forbidden`,
case-insensitively) the cached `_authenticated` flag is reset to `False`, so
the next `create_tweet` / `health_check` / `get_tweet_info` call invokes
`authenticate()` again; a failure that is not authentication-related leaves
the cached state unchanged. -/
theorem claim_C4 (st : SvcState) (msg : String) :
    (isAuthError msg = true →
      ((TwitterService.attemptBody st (.err msg)).2).authenticated = false) ∧
    (isAuthError msg = false →
      (TwitterService.attemptBody st (.err msg)).2 = st) ∧
    (TwitterService.attemptBody st (.err msg)).1 =
      Except.error ("发布推文失败: " ++ msg) ∧
    (isAuthError msg = true → ∀ env2 : AttemptEnv,
      (TwitterService.attemptOnce env2
        (TwitterService.attemptBody st (.err msg)).2).2.2 = true) ∧
    (∀ env2 : AttemptEnv, st.authenticated = false →
      (TwitterService.attemptOnce env2 st).2.2 = true) ∧
    (∀ aenv testOk, st.authenticated = false →
      (TwitterService.health_check aenv testOk st).2.2 = true) ∧
    (∀ aenv f, st.authenticated = false →
      (TwitterService.get_tweet_info aenv f st).2.2 = true) ∧
    (isAuthError "Unauthorized: bad token" = true ∧
      isAuthError "Network timeout" = false) := by
  refine ⟨?_, ?_, ?_, ?_, ?_, ?_, ?_, rfl, rfl⟩
  · intro h; simp [TwitterService.attemptBody, h]
  · intro h; simp [TwitterService.attemptBody, h]
  · simp [TwitterService.attemptBody]
  · intro h env2
    have h2 : ((TwitterService.attemptBody st (.err msg)).2).authenticated =
        false := by simp [TwitterService.attemptBody, h]
    simp only [TwitterService.attemptOnce, h2]
    rcases h3 : TwitterService.authenticate env2.auth
        (TwitterService.attemptBody st (.err msg)).2 with ⟨r, s4, t4⟩
    cases r <;> simp
  · intro env2 h
    simp only [TwitterService.attemptOnce, h]
    rcases h3 : TwitterService.authenticate env2.auth st with ⟨r, s4, t4⟩
    cases r <;> simp
  · intro aenv testOk h
    simp only [TwitterService.health_check, h]
    rcases h3 : TwitterService.authenticate aenv st with ⟨r, s4, t4⟩
    cases r <;> cases testOk <;> simp
  · intro aenv f h
    simp only [TwitterService.get_tweet_info, h]
    rcases h3 : TwitterService.authenticate aenv st with ⟨r, s4, t4⟩
    cases r <;> simp

/-- C4 witness: a concrete auth-related failure clears the flag of an
authenticated service. -/
theorem claim_C4_witness :
    isAuthError "Unauthorized: bad token" = true ∧
    ((TwitterService.attemptBody ⟨true⟩
      (.err "Unauthorized: bad token")).2).authenticated = false :=
  ⟨rfl, (claim_C4 ⟨true⟩ "Unauthorized: bad token").1 rfl⟩

/-! ## Claim C8 -/

/-- C8: `authenticate()` first tries the saved cookies — when the cookie file
exists, loads, and the cached session passes the test, it marks the service
authenticated and returns `True` with no credential login; a login is
performed only when that cached path did not succeed; a successful login is
followed by saving the fresh cookies; and every failure raises a
`TwitterClientError` (message prefixed `认证失败: `). -/
theorem claim_C8 (env : AuthEnv) (st : SvcState) :
    (env.cookieFileExists = true → env.loadCookiesOk = true →
      env.testAuthOk = true →
      (TwitterService.authenticate env st).1 = Except.ok true ∧
      ((TwitterService.authenticate env st).2.1).authenticated = true ∧
      ((TwitterService.authenticate env st).2.2).calledLogin = false ∧
      ((TwitterService.authenticate env st).2.2).savedCookies = false) ∧
    (((TwitterService.authenticate env st).2.2).calledLogin = true →
      ¬(env.cookieFileExists = true ∧ env.loadCookiesOk = true ∧
        env.testAuthOk = true)) ∧
    (((TwitterService.authenticate env st).2.2).calledLogin = true →
      env.loginOk = true → env.saveCookiesOk = true →
      ((TwitterService.authenticate env st).2.2).savedCookies = true ∧
      (TwitterService.authenticate env st).1 = Except.ok true ∧
      ((TwitterService.authenticate env st).2.1).authenticated = true) ∧
    (((TwitterService.authenticate env st).2.2).calledLogin = true →
      env.loginOk = false →
      (TwitterService.authenticate env st).1 =
        Except.error ("认证失败: " ++ env.loginErr)) ∧
    (∀ m, (TwitterService.authenticate env st).1 = Except.error m →
      ∃ m0, m = "认证失败: " ++ m0) := by
  rcases env with ⟨cfe, lok, le, tok, lgok, lge, sok, se⟩
  cases cfe <;> cases lok <;> cases tok <;> cases lgok <;> cases sok <;>
    simp [TwitterService.authenticate, TwitterService.loginAndSave]

/-- C8 witness: with an existing valid cookie file the service authenticates
from the cache and performs no login. -/
theorem claim_C8_witness :
    (TwitterService.authenticate aeOkC ⟨false⟩).1 = Except.ok true ∧
    ((TwitterService.authenticate aeOkC ⟨false⟩).2.1).authenticated = true ∧
    ((TwitterService.authenticate aeOkC ⟨false⟩).2.2).calledLogin = false ∧
    ((TwitterService.authenticate aeOkC ⟨false⟩).2.2).savedCookies = false :=
  (claim_C8 aeOkC ⟨false⟩).1 rfl rfl rfl

/-! ## Claim C9 -/

/-- C9: the `GET /health` handler always returns a `HealthResponse` — with
status `healthy` and the adapter-reported twitter status (`connected` or
`disconnected`) when the adapter call returns, and `unhealthy`/`error` when
the call itself raises — and the adapter's `health_check` itself catches
every exception, returning a status dictionary instead of raising. -/
theorem claim_C9 (env : HealthEnv) (st : SvcState) :
    ((Main.health_check env st).1.status = "healthy" ∨
      (Main.health_check env st).1.status = "unhealthy") ∧
    (env.serviceInit = true →
      (Main.health_check env st).1.status = "healthy" ∧
      (Main.health_check env st).1.twitter_status =
        ((TwitterService.health_check env.aenv env.testOk st).1).status) ∧
    (env.serviceInit = false →
      (Main.health_check env st).1 = ⟨"unhealthy", "error"⟩) ∧
    (∀ aenv testOk s2,
      ((TwitterService.health_check aenv testOk s2).1).status = "connected" ∨
      ((TwitterService.health_check aenv testOk s2).1).status =
        "disconnected") := by
  have hadapter : ∀ (aenv : AuthEnv) (testOk : Bool) (s2 : SvcState),
      ((TwitterService.health_check aenv testOk s2).1).status = "connected" ∨
      ((TwitterService.health_check aenv testOk s2).1).status =
        "disconnected" := by
    intro aenv testOk s2
    rcases s2 with ⟨a⟩
    cases a
    · rcases h3 : TwitterService.authenticate aenv ⟨false⟩ with ⟨r, s4, t4⟩
      cases r <;> cases testOk <;> simp [TwitterService.health_check, h3]
    · cases testOk <;> simp [TwitterService.health_check]
  cases hsi : env.serviceInit with
  | false =>
      refine ⟨Or.inr ?_, ?_, fun _ => ?_, hadapter⟩
      · simp [Main.health_check, hsi]
      · intro h; exact absurd h (by simp [hsi])
      · simp [Main.health_check, hsi]
  | true =>
      refine ⟨Or.inl ?_, fun _ => ⟨?_, ?_⟩,
        fun h => absurd h (by simp [hsi]), hadapter⟩
      · simp [Main.health_check, hsi]
      · simp [Main.health_check, hsi]
      · simp [Main.health_check, hsi]

/-- C9 witness: an initialised, authenticated service reports healthy and
connected; an uninitialised one reports unhealthy / error. -/
theorem claim_C9_witness :
    (Main.health_check ⟨true, aeOkC, true⟩ ⟨true⟩).1.status = "healthy" ∧
    (Main.health_check ⟨true, aeOkC, true⟩ ⟨true⟩).1.twitter_status =
      ((TwitterService.health_check aeOkC true ⟨true⟩).1).status :=
  (claim_C9 ⟨true, aeOkC, true⟩ ⟨true⟩).2.1 rfl

/-! ## Claim C3 -/

theorem runAttempts_count_le (env : Nat → AttemptEnv) :
    ∀ fuel st n, (TwitterService.runAttempts env st n fuel).2.2 ≤ fuel := by
  intro fuel
  induction fuel with
  | zero => intro st n; simp [TwitterService.runAttempts]
  | succ k ih =>
      intro st n
      simp only [TwitterService.runAttempts]
      rcases h : TwitterService.attemptOnce (env n) st with ⟨r, st2, b⟩
      cases r with
      | ok t => simp
      | error e =>
          by_cases hk : k = 0
          · simp [hk]
          · have hle := ih st2 (n + 1)
            rcases h2 : TwitterService.runAttempts env st2 (n + 1) k
              with ⟨r2, st3, c2⟩
            rw [h2] at hle
            simp at hle
            simp [hk, h2]
            omega

theorem runAttempts_count_pos (env : Nat → AttemptEnv) :
    ∀ fuel st n, 1 ≤ fuel →
      1 ≤ (TwitterService.runAttempts env st n fuel).2.2 := by
  intro fuel
  induction fuel with
  | zero => intro st n h; exact absurd h (by omega)
  | succ k ih =>
      intro st n _
      simp only [TwitterService.runAttempts]
      rcases h : TwitterService.attemptOnce (env n) st with ⟨r, st2, b⟩
      cases r with
      | ok t => simp
      | error e =>
          by_cases hk : k = 0
          · simp [hk]
          · rcases h2 : TwitterService.runAttempts env st2 (n + 1) k
              with ⟨r2, st3, c2⟩
            simp [hk, h2]

theorem runAttempts_allFail (env : Nat → AttemptEnv)
    (hf : ∀ n s, ∃ m,
      (TwitterService.attemptOnce (env n) s).1 = Except.error m) :
    ∀ fuel st n, 1 ≤ fuel →
      (TwitterService.runAttempts env st n fuel).2.2 = fuel ∧
      ∃ m, (TwitterService.runAttempts env st n fuel).1 = Except.error m := by
  intro fuel
  induction fuel with
  | zero => intro st n h; exact absurd h (by omega)
  | succ k ih =>
      intro st n _
      obtain ⟨m, hm⟩ := hf n st
      rcases h : TwitterService.attemptOnce (env n) st with ⟨r, st2, b⟩
      rw [h] at hm
      have hr : r = Except.error m := by simpa using hm
      subst hr
      simp only [TwitterService.runAttempts, h]
      by_cases hk : k = 0
      · subst hk; simp
      · obtain ⟨ih1, m2, ih2⟩ := ih st2 (n + 1) (by omega)
        rcases h2 : TwitterService.runAttempts env st2 (n + 1) k
          with ⟨r2, st3, c2⟩
        rw [h2] at ih1 ih2
        simp only at ih1 ih2
        simp [hk, h2, ih1, ih2]

/-- C3 (amended): each call to the adapter's `create_tweet` makes at most 3
attempts — the hard-coded `stop_after_attempt(3)` of the `@retry` decorator,
which coincides with the default of `max_retry_attempts` but does not follow
the configured value — with increasing clamped-exponential delays between
attempts, and when every attempt fails it stops after the 3rd and re-raises
the error to the caller. -/
theorem claim_C3 (env : Nat → AttemptEnv) (st : SvcState)
    (u e p : String) :
    (TwitterService.create_tweet env st).2.2 ≤ stop_after_attempt ∧
    stop_after_attempt = 3 ∧
    (defaultSettings u e p).max_retry_attempts = stop_after_attempt ∧
    ((∀ n s, ∃ m,
        (TwitterService.attemptOnce (env n) s).1 = Except.error m) →
      (TwitterService.create_tweet env st).2.2 = stop_after_attempt ∧
      ∃ m, (TwitterService.create_tweet env st).1 = Except.error m) ∧
    backoffDelays stop_after_attempt = [retryWait 1, retryWait 2] ∧
    retryWait 1 = 2 ∧ retryWait 2 = 4 ∧
    (∀ k, retryWait k ≤ retryWait (k + 1)) := by
  refine ⟨runAttempts_count_le env stop_after_attempt st 1, rfl, rfl,
    fun hf => runAttempts_allFail env hf stop_after_attempt st 1 (by decide),
    rfl, rfl, rfl, ?_⟩
  intro k
  unfold retryWait wait_exponential
  have hpow : (2 : Nat) ^ k ≤ 2 ^ (k + 1) :=
    Nat.pow_le_pow_right (by omega) (Nat.le_succ k)
  have hmin : min (1 * 2 ^ k) 10 ≤ min (1 * 2 ^ (k + 1)) 10 := by
    simp only [Nat.one_mul]
    exact min_le_min hpow (le_refl 10)
  exact max_le_max (le_refl 2) hmin

/-- C3 counterexample: with `max_retry_attempts` configured to 2, a call
whose posting always fails still makes 3 attempts, more than the configured
maximum — the `@retry` decorator hard-codes `stop_after_attempt(3)` and never
reads the setting. -/
theorem claim_C3_cex :
    ¬ ((TwitterService.create_tweet failEnvC ⟨true⟩).2.2 ≤
        cexSettings.max_retry_attempts) := by decide

/-- C3 witness: on an always-failing adapter the call makes exactly 3
attempts and re-raises the final error. -/
theorem claim_C3_witness :
    (TwitterService.create_tweet failEnvC ⟨true⟩).2.2 = stop_after_attempt ∧
    ∃ m, (TwitterService.create_tweet failEnvC ⟨true⟩).1 = Except.error m :=
  (claim_C3 failEnvC ⟨true⟩ "u" "e" "p").2.2.2.1
    (fun n s => by rcases s with ⟨a⟩; cases a <;> exact ⟨_, rfl⟩)

/-! ## Unfolding lemmas for the `POST /api/tweet` handler -/

theorem endpoint_raw_ok (env : ReqEnv) (st : SvcState) (db : DB)
    (text : String) (now : Nat) (hv : validText text = true)
    (t : Tweet) (st2 : SvcState) (c : Nat)
    (hsi : env.serviceInit = true)
    (hct : TwitterService.create_tweet env.attempts st =
      (Except.ok t, st2, c)) :
    Main.create_tweet env st db text now =
      (HttpResp.ok t.id "推文发布成功" (some t.created_at), st2,
       update_tweet_log
         ⟨db.rows ++ [insertedRow db text now], db.nextId + 1⟩
         db.nextId (some t.id) (some "success") none none now,
       [Event.validate true, Event.insertLog db.nextId "processing"] ++
         (List.replicate c Event.adapterCall ++
           [Event.updateLog db.nextId "success"]) ++ [Event.respond 200]) := by
  simp only [Main.create_tweet, hv, if_true, log_tweet,
    process_tweet_async, hsi, hct]
  rfl

theorem endpoint_raw_err (env : ReqEnv) (st : SvcState) (db : DB)
    (text : String) (now : Nat) (hv : validText text = true)
    (msg : String) (st2 : SvcState) (c : Nat)
    (hsi : env.serviceInit = true)
    (hct : TwitterService.create_tweet env.attempts st =
      (Except.error msg, st2, c)) :
    Main.create_tweet env st db text now =
      (HttpResp.err 400 "TWITTER_ERROR" msg, st2,
       update_tweet_log
         (update_tweet_log
           ⟨db.rows ++ [insertedRow db text now], db.nextId + 1⟩
           db.nextId none (some "failed") none (some msg) now)
         db.nextId none (some "failed") none (some msg) now,
       [Event.validate true, Event.insertLog db.nextId "processing"] ++
         (List.replicate c Event.adapterCall ++
           [Event.updateLog db.nextId "failed"]) ++
         [Event.updateLog db.nextId "failed"] ++ [Event.respond 400]) := by
  simp only [Main.create_tweet, hv, if_true, log_tweet,
    process_tweet_async, hsi, hct, dispatchError]
  rfl

theorem endpoint_raw_uninit (env : ReqEnv) (st : SvcState) (db : DB)
    (text : String) (now : Nat) (hv : validText text = true)
    (hsi : env.serviceInit = false) :
    Main.create_tweet env st db text now =
      (HttpResp.err 500 "INTERNAL_ERROR" "Twitter服务未初始化", st,
       update_tweet_log
         (update_tweet_log
           ⟨db.rows ++ [insertedRow db text now], db.nextId + 1⟩
           db.nextId none (some "failed") none
           (some "Twitter服务未初始化") now)
         db.nextId none (some "failed") none
         (some "Twitter服务未初始化") now,
       [Event.validate true, Event.insertLog db.nextId "processing"] ++
         [Event.updateLog db.nextId "failed"] ++
         [Event.updateLog db.nextId "failed"] ++ [Event.respond 500]) := by
  simp only [Main.create_tweet, hv, if_true, log_tweet,
    process_tweet_async, hsi, dispatchError]
  rfl

/-! ## Claim C1 -/

/-- C1: every validated `POST /api/tweet` request inserts a log row with
status `processing`, and that row's final status is exactly `success` when
the adapter call succeeds and exactly `failed` when it fails; the publish
flow never writes any other status. -/
theorem claim_C1 (env : ReqEnv) (st : SvcState) (db : DB) (text : String)
    (now : Nat) (hwf : db.wf) (hv : validText text = true) :
    Event.insertLog db.nextId "processing" ∈
      (Main.create_tweet env st db text now).2.2.2 ∧
    (env.serviceInit = true →
      rowStatus (Main.create_tweet env st db text now).2.2.1 db.nextId =
        some (match (TwitterService.create_tweet env.attempts st).1 with
          | .ok _ => "success"
          | .error _ => "failed")) ∧
    (env.serviceInit = false →
      rowStatus (Main.create_tweet env st db text now).2.2.1 db.nextId =
        some "failed") ∧
    (∀ i s2,
      Event.updateLog i s2 ∈ (Main.create_tweet env st db text now).2.2.2 →
      s2 = "success" ∨ s2 = "failed") ∧
    (∀ i s2,
      Event.insertLog i s2 ∈ (Main.create_tweet env st db text now).2.2.2 →
      s2 = "processing") := by
  have hne : ∀ r ∈ db.rows, r.id ≠ db.nextId :=
    fun r hr => Nat.ne_of_lt (hwf r hr)
  cases hsi : env.serviceInit with
  | true =>
      rcases hct : TwitterService.create_tweet env.attempts st with ⟨r, st2, c⟩
      cases r with
      | ok t =>
          rw [endpoint_raw_ok env st db text now hv t st2 c hsi hct,
            update_rows_append db.rows (insertedRow db text now)
              (db.nextId + 1) db.nextId rfl hne (some t.id) (some "success") none none now]
          refine ⟨by simp, fun _ => ?_, fun hc => absurd hc (by simp [hsi]),
            ?_, ?_⟩
          · have hrs := rowStatus_append db.rows
              (applyUpdate (some t.id) (some "success") none none now
                (insertedRow db text now)) (db.nextId + 1) db.nextId rfl hne
            simpa [hct, applyUpdate, insertedRow] using hrs
          · intro i s2 h
            simp [List.mem_append, List.mem_replicate] at h
            simp [h]
          · intro i s2 h
            simp [List.mem_append, List.mem_replicate] at h
            simp [h]
      | error msg =>
          rw [endpoint_raw_err env st db text now hv msg st2 c hsi hct,
            update_rows_append db.rows (insertedRow db text now)
              (db.nextId + 1) db.nextId rfl hne none (some "failed") none (some msg) now,
            update_rows_append db.rows
              (applyUpdate none (some "failed") none (some msg) now
                (insertedRow db text now))
              (db.nextId + 1) db.nextId rfl hne none (some "failed") none (some msg) now]
          refine ⟨by simp, fun _ => ?_, fun hc => absurd hc (by simp [hsi]),
            ?_, ?_⟩
          · have hrs := rowStatus_append db.rows
              (applyUpdate none (some "failed") none (some msg) now
                (applyUpdate none (some "failed") none (some msg) now
                  (insertedRow db text now))) (db.nextId + 1) db.nextId rfl hne
            simpa [hct, applyUpdate, insertedRow] using hrs
          · intro i s2 h
            simp [List.mem_append, List.mem_replicate] at h
            exact Or.inr h.2
          · intro i s2 h
            simp [List.mem_append, List.mem_replicate] at h
            simp [h]
  | false =>
      rw [endpoint_raw_uninit env st db text now hv hsi,
        update_rows_append db.rows (insertedRow db text now)
          (db.nextId + 1) db.nextId rfl hne none (some "failed") none
          (some "Twitter服务未初始化") now,
        update_rows_append db.rows
          (applyUpdate none (some "failed") none
            (some "Twitter服务未初始化") now (insertedRow db text now))
          (db.nextId + 1) db.nextId rfl hne none (some "failed") none
          (some "Twitter服务未初始化") now]
      refine ⟨by simp, fun hc => absurd hc (by simp [hsi]), fun _ => ?_,
        ?_, ?_⟩
      · have hrs := rowStatus_append db.rows
          (applyUpdate none (some "failed") none
            (some "Twitter服务未初始化") now
            (applyUpdate none (some "failed") none
              (some "Twitter服务未初始化") now
              (insertedRow db text now))) (db.nextId + 1) db.nextId rfl hne
        simpa [applyUpdate, insertedRow] using hrs
      · intro i s2 h
        simp [List.mem_append] at h
        exact Or.inr h.2
      · intro i s2 h
        simp [List.mem_append] at h
        simp [h]

/-- C1 witness: a successful publish on an empty table inserts row 1 as
`processing` and leaves it `success`. -/
theorem claim_C1_witness :
    dbEmptyC.wf ∧ validText "hello" = true ∧
    Event.insertLog dbEmptyC.nextId "processing" ∈
      (Main.create_tweet renvOkC ⟨true⟩ dbEmptyC "hello" 5).2.2.2 :=
  ⟨fun r hr => absurd hr (List.not_mem_nil r), rfl,
    (claim_C1 renvOkC ⟨true⟩ dbEmptyC "hello" 5
      (fun r hr => absurd hr (List.not_mem_nil r)) rfl).1⟩

/-! ## Claim C2 -/

/-- C2: when the adapter call fails, the log row is updated to `failed` with
the error message recorded, and the error is surfaced to the HTTP caller —
400 / `TWITTER_ERROR` for a `TwitterClientError`, 500 otherwise — rather
than swallowed. -/
theorem claim_C2 (env : ReqEnv) (st : SvcState) (db : DB) (text : String)
    (now : Nat) (hwf : db.wf) (hv : validText text = true) :
    (env.serviceInit = true → ∀ msg st2 c,
      TwitterService.create_tweet env.attempts st =
        (Except.error msg, st2, c) →
      (Main.create_tweet env st db text now).1 =
        HttpResp.err 400 "TWITTER_ERROR" msg ∧
      rowStatus (Main.create_tweet env st db text now).2.2.1 db.nextId =
        some "failed" ∧
      rowError (Main.create_tweet env st db text now).2.2.1 db.nextId =
        some (some msg)) ∧
    (env.serviceInit = false →
      (Main.create_tweet env st db text now).1 =
        HttpResp.err 500 "INTERNAL_ERROR" "Twitter服务未初始化" ∧
      rowStatus (Main.create_tweet env st db text now).2.2.1 db.nextId =
        some "failed" ∧
      rowError (Main.create_tweet env st db text now).2.2.1 db.nextId =
        some (some "Twitter服务未初始化")) := by
  have hne : ∀ r ∈ db.rows, r.id ≠ db.nextId :=
    fun r hr => Nat.ne_of_lt (hwf r hr)
  constructor
  · intro hsi msg st2 c hct
    rw [endpoint_raw_err env st db text now hv msg st2 c hsi hct,
      update_rows_append db.rows (insertedRow db text now)
        (db.nextId + 1) db.nextId rfl hne none (some "failed") none (some msg) now,
      update_rows_append db.rows
        (applyUpdate none (some "failed") none (some msg) now
          (insertedRow db text now))
        (db.nextId + 1) db.nextId rfl hne none (some "failed") none (some msg) now]
    refine ⟨rfl, ?_, ?_⟩
    · have hrs := rowStatus_append db.rows
        (applyUpdate none (some "failed") none (some msg) now
          (applyUpdate none (some "failed") none (some msg) now
            (insertedRow db text now))) (db.nextId + 1) db.nextId rfl hne
      simpa [applyUpdate, insertedRow] using hrs
    · have hre := rowError_append db.rows
        (applyUpdate none (some "failed") none (some msg) now
          (applyUpdate none (some "failed") none (some msg) now
            (insertedRow db text now))) (db.nextId + 1) db.nextId rfl hne
      simpa [applyUpdate, insertedRow] using hre
  · intro hsi
    rw [endpoint_raw_uninit env st db text now hv hsi,
      update_rows_append db.rows (insertedRow db text now)
        (db.nextId + 1) db.nextId rfl hne none (some "failed") none
        (some "Twitter服务未初始化") now,
      update_rows_append db.rows
        (applyUpdate none (some "failed") none
          (some "Twitter服务未初始化") now (insertedRow db text now))
        (db.nextId + 1) db.nextId rfl hne none (some "failed") none
        (some "Twitter服务未初始化") now]
    refine ⟨rfl, ?_, ?_⟩
    · have hrs := rowStatus_append db.rows
        (applyUpdate none (some "failed") none
          (some "Twitter服务未初始化") now
          (applyUpdate none (some "failed") none
            (some "Twitter服务未初始化") now
            (insertedRow db text now))) (db.nextId + 1) db.nextId rfl hne
      simpa [applyUpdate, insertedRow] using hrs
    · have hre := rowError_append db.rows
        (applyUpdate none (some "failed") none
          (some "Twitter服务未初始化") now
          (applyUpdate none (some "failed") none
            (some "Twitter服务未初始化") now
            (insertedRow db text now))) (db.nextId + 1) db.nextId rfl hne
      simpa [applyUpdate, insertedRow] using hre

/-- C2 witness: an always-failing adapter yields response 400 /
`TWITTER_ERROR` with the row marked `failed` and the message recorded. -/
theorem claim_C2_witness :
    (Main.create_tweet renvFailC ⟨true⟩ dbEmptyC "hello" 5).1 =
      HttpResp.err 400 "TWITTER_ERROR" "发布推文失败: network down" ∧
    rowStatus (Main.create_tweet renvFailC ⟨true⟩ dbEmptyC "hello" 5).2.2.1
      dbEmptyC.nextId = some "failed" ∧
    rowError (Main.create_tweet renvFailC ⟨true⟩ dbEmptyC "hello" 5).2.2.1
      dbEmptyC.nextId = some (some "发布推文失败: network down") :=
  (claim_C2 renvFailC ⟨true⟩ dbEmptyC "hello" 5
      (fun r hr => absurd hr (List.not_mem_nil r)) rfl).1 rfl
    "发布推文失败: network down" ⟨true⟩ 3 rfl

/-! ## Claim C5 -/

/-- C5: a validated `POST /api/tweet` request performs its steps in order —
validation, insertion of the `processing` row, the adapter attempts, the
final-status updates, and only then the HTTP response; no adapter call
precedes the inserted row and no response precedes the final update. -/
theorem claim_C5 (env : ReqEnv) (st : SvcState) (db : DB) (text : String)
    (now : Nat) (hv : validText text = true) :
    ∃ (c : Nat) (ups : List Event),
      (Main.create_tweet env st db text now).2.2.2 =
        Event.validate true :: Event.insertLog db.nextId "processing" ::
          (List.replicate c Event.adapterCall ++ ups ++
            [Event.respond ((Main.create_tweet env st db text now).1).code]) ∧
      (env.serviceInit = true → 1 ≤ c ∧ c ≤ stop_after_attempt) ∧
      (env.serviceInit = false → c = 0) ∧
      ups ≠ [] ∧
      (∀ ev ∈ ups, ∃ s2, ev = Event.updateLog db.nextId s2) := by
  cases hsi : env.serviceInit with
  | true =>
      rcases hct : TwitterService.create_tweet env.attempts st with ⟨r, st2, c⟩
      have hc1 : 1 ≤ c := by
        have := runAttempts_count_pos env.attempts stop_after_attempt st 1
          (by decide)
        rw [TwitterService.create_tweet] at hct
        rw [hct] at this
        simpa using this
      have hc3 : c ≤ stop_after_attempt := by
        have := runAttempts_count_le env.attempts stop_after_attempt st 1
        rw [TwitterService.create_tweet] at hct
        rw [hct] at this
        simpa using this
      cases r with
      | ok t =>
          refine ⟨c, [Event.updateLog db.nextId "success"], ?_,
            fun _ => ⟨hc1, hc3⟩, fun hc => absurd hc (by simp [hsi]),
            by simp, by simp⟩
          rw [endpoint_raw_ok env st db text now hv t st2 c hsi hct]
          simp [HttpResp.code]
      | error msg =>
          refine ⟨c, [Event.updateLog db.nextId "failed",
              Event.updateLog db.nextId "failed"], ?_,
            fun _ => ⟨hc1, hc3⟩, fun hc => absurd hc (by simp [hsi]),
            by simp, by simp⟩
          rw [endpoint_raw_err env st db text now hv msg st2 c hsi hct]
          simp [HttpResp.code]
  | false =>
      refine ⟨0, [Event.updateLog db.nextId "failed",
          Event.updateLog db.nextId "failed"], ?_,
        fun hc => absurd hc (by simp [hsi]), fun _ => rfl,
        by simp, by simp⟩
      rw [endpoint_raw_uninit env st db text now hv hsi]
      simp [HttpResp.code]

/-- C5 witness: the ordered trace exists for a concrete successful request. -/
theorem claim_C5_witness :
    ∃ (c : Nat) (ups : List Event),
      (Main.create_tweet renvOkC ⟨true⟩ dbEmptyC "hello" 5).2.2.2 =
        Event.validate true ::
          Event.insertLog dbEmptyC.nextId "processing" ::
          (List.replicate c Event.adapterCall ++ ups ++
            [Event.respond
              ((Main.create_tweet renvOkC ⟨true⟩ dbEmptyC "hello" 5).1).code]) ∧
      (renvOkC.serviceInit = true → 1 ≤ c ∧ c ≤ stop_after_attempt) ∧
      (renvOkC.serviceInit = false → c = 0) ∧
      ups ≠ [] ∧
      (∀ ev ∈ ups, ∃ s2, ev = Event.updateLog dbEmptyC.nextId s2) :=
  claim_C5 renvOkC ⟨true⟩ dbEmptyC "hello" 5 rfl

/-! ## Claim C6 -/

/-- C6: `POST /api/tweet` accepts a request exactly when its text has 1 to
280 characters; an empty or over-length text is rejected with 422 before any
log row is inserted and before any adapter call. -/
theorem claim_C6 (env : ReqEnv) (st : SvcState) (db : DB) (text : String)
    (now : Nat) (hinv : validText text = false) :
    (Main.create_tweet env st db text now).2.2.1 = db ∧
    (Main.create_tweet env st db text now).2.1 = st ∧
    (Main.create_tweet env st db text now).1 =
      HttpResp.err 422 "VALIDATION_ERROR" "text length out of range" ∧
    (∀ i s2,
      Event.insertLog i s2 ∉ (Main.create_tweet env st db text now).2.2.2) ∧
    Event.adapterCall ∉ (Main.create_tweet env st db text now).2.2.2 ∧
    (validText text = true ↔ 1 ≤ text.length ∧ text.length ≤ 280) := by
  refine ⟨?_, ?_, ?_, ?_, ?_, by simp [validText]⟩ <;>
    simp [Main.create_tweet, hinv]

/-- C6 witness: the empty text is rejected and the table is untouched. -/
theorem claim_C6_witness :
    validText "" = false ∧
    (Main.create_tweet renvOkC ⟨true⟩ dbEmptyC "" 5).2.2.1 = dbEmptyC :=
  ⟨rfl, (claim_C6 renvOkC ⟨true⟩ dbEmptyC "" 5 rfl).1⟩

end Twikit
